import Mathlib

/-!
Shallow embedding of `backend/main.py` of the AIAgents repository: the
project data model, the two stub AI agents, the background pipeline and
the CRUD route handlers, together with theorems checking the
specification's claims about them.

Timestamps (`datetime.utcnow()` in the source) are modelled as explicit
`Nat` parameters; the document store is modelled as a partial map from
project ids to project records; raised `HTTPException`s are modelled with
`Except HTTPError`.
-/

namespace AIAgents

/-- String helper: does the character list `needle` occur at the start of
`hay`?  Used to embed Python's `in` operator on strings. -/
def startsWithSeq : List Char → List Char → Bool
  | [], _ => true
  | _ :: _, [] => false
  | c :: cs, d :: ds => c == d && startsWithSeq cs ds

/-- String helper: does the character list `needle` occur contiguously
anywhere in `hay`?  Embeds Python's `needle in hay` on strings. -/
def containsSeq (needle : List Char) : List Char → Bool
  | [] => startsWithSeq needle []
  | c :: cs => startsWithSeq needle (c :: cs) || containsSeq needle cs

/-- Python `needle in hay` for strings. -/
def strContains (hay needle : String) : Bool :=
  containsSeq needle.data hay.data

/-- Python `s.lower()` (the strings involved are ASCII). -/
def strLower (s : String) : String :=
  String.mk (s.data.map Char.toLower)

/-- Pydantic model `DesignComponent` (`component`, `structure`, `styling`,
`reasoning`); the `structure` field is renamed `structure'` because
`structure` is a Lean keyword. -/
structure DesignComponent where
  component : String
  structure' : String
  styling : String
  reasoning : String
  deriving DecidableEq

/-- Pydantic model `TechnicalSpecs`. -/
structure TechnicalSpecs where
  framework : String
  styling : String
  responsive : Bool
  accessibility : String
  deriving DecidableEq

/-- Pydantic model `Design`. -/
structure Design where
  timestamp : Nat
  designs : List DesignComponent
  technical_specs : TechnicalSpecs
  deriving DecidableEq

/-- Pydantic model `Review`. -/
structure Review where
  timestamp : Nat
  score : Int
  status : String
  strengths : List String
  issues : List String
  suggestions : List String
  deriving DecidableEq

/-- Pydantic model `HumanApproval`. -/
structure HumanApproval where
  approved : Bool
  feedback : String
  timestamp : Nat
  approver : String
  deriving DecidableEq

/-- Pydantic model `ApprovalRequest` (`feedback: Optional[str] = ""`). -/
structure ApprovalRequest where
  approved : Bool
  feedback : Option String
  deriving DecidableEq

/-- A project document as stored in the `projects` collection.  The
`error_message` field is only ever written by the pipeline's exception
handler and is absent (`none`) otherwise. -/
structure Project where
  name : String
  requirements : String
  status : String
  created_at : Nat
  design : Option Design
  review : Option Review
  human_approval : Option HumanApproval
  error_message : Option String
  deriving DecidableEq

/-- `ai_agent_1_generate_design(requirements)`: returns the fixed design
payload; `t` stands for the `datetime.utcnow()` call. -/
def ai_agent_1_generate_design (t : Nat) (requirements : String) : Design :=
  let designs : List DesignComponent :=
    [ { component := "Header Component",
        structure' := "Logo + Navigation Menu + CTA Button + Mobile Hamburger",
        styling := "Dark gradient (slate-900 to slate-800), white text, glass morphism effect, sticky positioning",
        reasoning := "Modern header with clear visual hierarchy. Sticky positioning ensures constant navigation access. Glass morphism adds premium feel." },
      { component := "Hero Section",
        structure' := "Large Heading + Subheading + Hero Image/Video + Dual CTA Buttons + Trust Indicators",
        styling := "Full viewport height, gradient background, bold typography (4xl-6xl), animated elements, responsive grid",
        reasoning := "Eye-catching hero section designed to immediately capture attention and communicate value proposition. Dual CTAs provide primary and secondary actions." },
      { component := "Features Grid",
        structure' := "3-column grid with icon cards, each containing: Icon + Title + Description + Learn More link",
        styling := "Card-based layout with shadows, hover lift effect, consistent spacing (gap-6), rounded corners (rounded-xl)",
        reasoning := "Scannable layout that highlights key features. Card design allows easy content digestion. Hover effects add interactivity." },
      { component := "Social Proof Section",
        structure' := "Customer testimonials carousel + Client logos grid + Statistics counter",
        styling := "Alternating background color, contained width, auto-scrolling carousel, fade animations",
        reasoning := "Builds trust through social validation. Statistics provide concrete proof of value. Testimonials add human element." },
      { component := "Footer Component",
        structure' := "Multi-column layout: Company Info + Quick Links + Resources + Newsletter Signup + Social Links",
        styling := "Dark background (slate-900), organized columns, subtle borders, responsive stack on mobile",
        reasoning := "Comprehensive footer providing easy access to all important links and information. Newsletter signup captures leads." } ]
  let technical_specs : TechnicalSpecs :=
    { framework := "React 18 with TypeScript",
      styling := "Tailwind CSS v3 with custom theme extensions",
      responsive := true,
      accessibility := "WCAG 2.1 AA compliant with ARIA labels, semantic HTML, keyboard navigation support" }
  { timestamp := t, designs := designs, technical_specs := technical_specs }

/-- `ai_agent_2_review_design(design, requirements)`: starts from score 85
and applies the three penalty checks, accumulating issue strings in order;
`t` stands for the `datetime.utcnow()` call. -/
def ai_agent_2_review_design (t : Nat) (design : Design) (requirements : String) : Review :=
  let score0 : Int := 85
  let issues0 : List String := []
  let strengths : List String :=
    [ "Well-structured component hierarchy with clear separation of concerns",
      "Responsive design approach ensures compatibility across all devices",
      "Accessibility considerations properly integrated from the start",
      "Modern visual aesthetic aligned with current design trends",
      "Comprehensive technical specifications provided",
      "Each component has clear reasoning justifying design decisions" ]
  let component_count := design.designs.length
  let score1 := if component_count < 3 then score0 - 10 else score0
  let issues1 := if component_count < 3 then
      issues0 ++ ["Limited number of components may not cover all user needs"]
    else issues0
  let score2 := if !design.technical_specs.responsive then score1 - 20 else score1
  let issues2 := if !design.technical_specs.responsive then
      issues1 ++ ["CRITICAL: Design must be responsive for mobile users"]
    else issues1
  let hasKeyword := strContains (strLower design.technical_specs.accessibility) "accessibility"
  let score3 := if !hasKeyword then score2 - 15 else score2
  let issues3 := if !hasKeyword then
      issues2 ++ ["Accessibility standards not clearly defined"]
    else issues2
  let suggestions : List String :=
    [ "Consider adding loading states and skeleton screens for better perceived performance",
      "Implement micro-animations for improved user engagement and feedback",
      "Add dark mode toggle for user preference accommodation",
      "Include error boundary components for graceful error handling",
      "Consider implementing progressive image loading for performance",
      "Add A/B testing hooks for future optimization",
      "Include analytics tracking for user behavior insights" ]
  let status := if score3 ≥ 80 then "approved" else "needs_revision"
  { timestamp := t, score := score3, status := status,
    strengths := strengths, issues := issues3, suggestions := suggestions }

/-- The three `update_one` writes of `process_ai_pipeline`, as functions on
the project document.  First write: set status to `generating`. -/
def setStatusGenerating (p : Project) : Project :=
  { p with status := "generating" }

/-- Second pipeline write: attach the design and move to `reviewing`. -/
def attachDesign (p : Project) (d : Design) : Project :=
  { p with design := some d, status := "reviewing" }

/-- Third pipeline write: attach the review and move to `pending_approval`
when the review status is `approved`, else `needs_revision`. -/
def attachReview (p : Project) (r : Review) : Project :=
  { p with review := some r,
           status := if r.status == "approved" then "pending_approval" else "needs_revision" }

/-- The `except` handler of `process_ai_pipeline`: set status `error` and
record the exception text in `error_message`. -/
def setError (p : Project) (msg : String) : Project :=
  { p with status := "error", error_message := some msg }

/-- Where an injected exception interrupts the pipeline body: at one of the
five awaited operations. -/
inductive PipelineFault
  | atStatusUpdate
  | atGenerate
  | atDesignUpdate
  | atReview
  | atFinalUpdate
  deriving DecidableEq

/-- `process_ai_pipeline(project_id, requirements)` acting on the project
document `p`.  `t1`/`t2` stand for the `utcnow()` calls inside the two
agents, and `fault` injects an exception (with its `str(e)` text) at one of
the awaited operations; `none` is the exception-free run.  On a fault the
writes made so far persist and the catch-all handler applies `setError`. -/
def process_ai_pipeline (p : Project) (requirements : String) (t1 t2 : Nat)
    (fault : Option (PipelineFault × String)) : Project :=
  match fault with
  | some (.atStatusUpdate, m) => setError p m
  | some (.atGenerate, m) => setError (setStatusGenerating p) m
  | some (.atDesignUpdate, m) => setError (setStatusGenerating p) m
  | some (.atReview, m) =>
      setError (attachDesign (setStatusGenerating p)
        (ai_agent_1_generate_design t1 requirements)) m
  | some (.atFinalUpdate, m) =>
      setError (attachDesign (setStatusGenerating p)
        (ai_agent_1_generate_design t1 requirements)) m
  | none =>
      let p1 := setStatusGenerating p
      let design := ai_agent_1_generate_design t1 requirements
      let p2 := attachDesign p1 design
      let review := ai_agent_2_review_design t2 design requirements
      attachReview p2 review

/-- The document store: a partial map from project ids to documents. -/
def Store := String → Option Project

/-- Raised `HTTPException(status_code, detail)`. -/
structure HTTPError where
  status_code : Nat
  detail : String
  deriving DecidableEq

/-- `str(e)` for a starlette/fastapi `HTTPException` (external library
behavior: its `__str__` formats as `"<code>: <detail>"`). -/
def httpExcStr (e : HTTPError) : String :=
  toString e.status_code ++ ": " ++ e.detail

/-- The `project_data` document built and stored by `create_project`;
`t` stands for `datetime.utcnow()`. -/
def create_project (name requirements : String) (t : Nat) : Project :=
  { name := name, requirements := requirements, status := "pending",
    created_at := t, design := none, review := none, human_approval := none,
    error_message := none }

/-- The `try` body of `get_project`: look the project up and raise a 404
`HTTPException` when it is missing. -/
def getProjectBody (store : Store) (project_id : String) : Except HTTPError Project :=
  match store project_id with
  | none => .error { status_code := 404, detail := "Project not found" }
  | some p => .ok p

/-- `get_project(project_id)`: the `try` body wrapped in the handler
`except Exception as e: raise HTTPException(400, str(e))`.  Because
`HTTPException` is a subclass of `Exception`, the handler also catches the
body's own 404 and re-raises it as a 400. -/
def get_project (store : Store) (project_id : String) : Except HTTPError Project :=
  match getProjectBody store project_id with
  | .ok p => .ok p
  | .error e => .error { status_code := 400, detail := httpExcStr e }

/-- `approve_project(project_id, approval)`: returns the response (or the
raised `HTTPException`) together with the store after the call; `t` stands
for `datetime.utcnow()`.  Its handlers are `except HTTPException: raise`
followed by `except Exception as e: raise HTTPException(400, str(e))`, so
the `HTTPException`s raised in the body surface unchanged. -/
def approve_project (store : Store) (project_id : String)
    (approval : ApprovalRequest) (t : Nat) :
    Except HTTPError (String × String) × Store :=
  match store project_id with
  | none => (.error { status_code := 404, detail := "Project not found" }, store)
  | some project =>
    if project.status ≠ "pending_approval" then
      (.error { status_code := 400,
                detail := "Project cannot be approved in current status: " ++ project.status },
       store)
    else
      let human_approval : HumanApproval :=
        { approved := approval.approved, feedback := approval.feedback.getD "",
          timestamp := t, approver := "Human Reviewer" }
      let new_status := if approval.approved then "approved" else "rejected"
      let updated := { project with human_approval := some human_approval,
                                    status := new_status }
      (.ok ("Project " ++ new_status, project_id),
       fun k => if k = project_id then some updated else store k)

/-- The `$set` document of `regenerate_design`'s reset write. -/
def resetForRegenerate (p : Project) : Project :=
  { p with status := "pending", design := none, review := none,
           human_approval := none }

/-- `regenerate_design(project_id)`: returns the response (or the raised
`HTTPException`) together with the store after the call.  Its only handler
is `except Exception as e: raise HTTPException(400, str(e))`, so its own
404 is re-raised as a 400; the pipeline re-entry is the background task
added after the reset write. -/
def regenerate_design (store : Store) (project_id : String) :
    Except HTTPError (String × String) × Store :=
  match store project_id with
  | none =>
      (.error { status_code := 400,
                detail := httpExcStr { status_code := 404, detail := "Project not found" } },
       store)
  | some project =>
      (.ok ("Design regeneration started", project_id),
       fun k => if k = project_id then some (resetForRegenerate project) else store k)

/-- Project documents reachable through `create_project`, the individual
writes of a single non-interleaved `process_ai_pipeline` run (including its
exception handler, which can fire while the status is still `pending`,
`generating` or `reviewing`), `approve_project`'s success path, and
`regenerate_design`'s reset write. -/
inductive Reachable : Project → Prop
  | create (name requirements : String) (t : Nat) :
      Reachable (create_project name requirements t)
  | pipelineStart (p : Project) :
      Reachable p → p.status = "pending" →
      Reachable (setStatusGenerating p)
  | designDone (p : Project) (t : Nat) (requirements : String) :
      Reachable p → p.status = "generating" →
      Reachable (attachDesign p (ai_agent_1_generate_design t requirements))
  | reviewDone (p : Project) (d : Design) (t : Nat) (requirements : String) :
      Reachable p → p.status = "reviewing" → p.design = some d →
      Reachable (attachReview p (ai_agent_2_review_design t d requirements))
  | pipelineFail (p : Project) (m : String) :
      Reachable p →
      (p.status = "pending" ∨ p.status = "generating" ∨ p.status = "reviewing") →
      Reachable (setError p m)
  | approve (p : Project) (ha : HumanApproval) :
      Reachable p → p.status = "pending_approval" →
      Reachable { p with human_approval := some ha,
                         status := if ha.approved then "approved" else "rejected" }
  | regenerate (p : Project) :
      Reachable p → Reachable (resetForRegenerate p)

/-- The stage invariant of the specification: each payload is `none` until
the pipeline stage that produces it completes, and `human_approval` is
`none` until a human decision is made from `pending_approval`. -/
def stageInvariant (p : Project) : Prop :=
  ((p.status = "pending" ∨ p.status = "generating") → p.design = none)
  ∧ ((p.status = "pending" ∨ p.status = "generating" ∨ p.status = "reviewing") →
      p.review = none)
  ∧ ((p.status = "pending" ∨ p.status = "generating" ∨ p.status = "reviewing"
        ∨ p.status = "pending_approval" ∨ p.status = "needs_revision") →
      p.human_approval = none)

/-- C1: for every project whose pipeline run completes without an
exception, a review is attached and the final status is `pending_approval`
when the review's score is at least 80 and `needs_revision` otherwise; in
particular the final status is never `generating` or `reviewing`. -/
theorem pipeline_final_status (p : Project) (requirements : String) (t1 t2 : Nat) :
    ∃ r : Review,
      (process_ai_pipeline p requirements t1 t2 none).review = some r
      ∧ (process_ai_pipeline p requirements t1 t2 none).status =
          (if 80 ≤ r.score then "pending_approval" else "needs_revision")
      ∧ (process_ai_pipeline p requirements t1 t2 none).status ≠ "generating"
      ∧ (process_ai_pipeline p requirements t1 t2 none).status ≠ "reviewing" := by
  refine ⟨ai_agent_2_review_design t2 (ai_agent_1_generate_design t1 requirements) requirements,
    rfl, rfl, ?_, ?_⟩
  all_goals
    intro h
    rw [show (process_ai_pipeline p requirements t1 t2 none).status = "needs_revision" from rfl]
      at h
    simp at h

/-- C3: every created project document has status `pending`, null design,
review and human approval, and carries the given name and requirements. -/
theorem create_project_initial_state (name requirements : String) (t : Nat) :
    (create_project name requirements t).status = "pending"
    ∧ (create_project name requirements t).design = none
    ∧ (create_project name requirements t).review = none
    ∧ (create_project name requirements t).human_approval = none
    ∧ (create_project name requirements t).name = name
    ∧ (create_project name requirements t).requirements = requirements :=
  ⟨rfl, rfl, rfl, rfl, rfl, rfl⟩

/-- Helper: the reviewer's score written as one closed-form expression over
the three penalty conditions. -/
theorem review_score_eq (t : Nat) (d : Design) (requirements : String) :
    (ai_agent_2_review_design t d requirements).score =
      85 - (if d.designs.length < 3 then 10 else 0)
         - (if d.technical_specs.responsive then 0 else 20)
         - (if strContains (strLower d.technical_specs.accessibility) "accessibility"
            then 0 else 15) := by
  show (if !(strContains (strLower d.technical_specs.accessibility) "accessibility")
        then (if !d.technical_specs.responsive
              then (if d.designs.length < 3 then (85 : Int) - 10 else 85) - 20
              else (if d.designs.length < 3 then (85 : Int) - 10 else 85)) - 15
        else (if !d.technical_specs.responsive
              then (if d.designs.length < 3 then (85 : Int) - 10 else 85) - 20
              else (if d.designs.length < 3 then (85 : Int) - 10 else 85))) = _
  by_cases h1 : d.designs.length < 3 <;>
    cases h2 : d.technical_specs.responsive <;>
    cases h3 : strContains (strLower d.technical_specs.accessibility) "accessibility" <;>
    simp [h1, h2, h3]

/-- Helper: the review's status is `approved` exactly when its score is at
least 80, by construction. -/
theorem review_status_eq (t : Nat) (d : Design) (requirements : String) :
    (ai_agent_2_review_design t d requirements).status =
      (if (ai_agent_2_review_design t d requirements).score ≥ 80
       then "approved" else "needs_revision") := rfl

/-- C5: the reviewer's score is the base 85 minus a penalty of 10 when the
design has fewer than 3 components, 20 when it is not responsive, and 15
when the word `accessibility` (case-insensitively) is absent from the
accessibility spec; consequently a design with 5 components, responsive and
with the keyword present scores 85 with review status `approved`. -/
theorem review_score_rule (t : Nat) (d : Design) (requirements : String) :
    ((ai_agent_2_review_design t d requirements).score =
        85 - (if d.designs.length < 3 then 10 else 0)
           - (if d.technical_specs.responsive then 0 else 20)
           - (if strContains (strLower d.technical_specs.accessibility) "accessibility"
              then 0 else 15))
    ∧ (d.designs.length = 5 → d.technical_specs.responsive = true →
        strContains (strLower d.technical_specs.accessibility) "accessibility" = true →
        (ai_agent_2_review_design t d requirements).score = 85
        ∧ (ai_agent_2_review_design t d requirements).status = "approved") := by
  refine ⟨review_score_eq t d requirements, fun h5 hresp hkw => ?_⟩
  have hlt : ¬ d.designs.length < 3 := by omega
  have hscore : (ai_agent_2_review_design t d requirements).score = 85 := by
    rw [review_score_eq]
    simp [hlt, hresp, hkw]
  refine ⟨hscore, ?_⟩
  rw [review_status_eq, hscore]
  simp

/-- C6: when an exception interrupts the pipeline at any of its awaited
operations, the handler sets the status to `error` and records the
exception text in `error_message`. -/
theorem pipeline_error_handling (p : Project) (requirements : String) (t1 t2 : Nat)
    (f : PipelineFault) (m : String) :
    (process_ai_pipeline p requirements t1 t2 (some (f, m))).status = "error"
    ∧ (process_ai_pipeline p requirements t1 t2 (some (f, m))).error_message = some m := by
  cases f <;> exact ⟨rfl, rfl⟩

/-- C9: for every design the reviewer's score lies between 40 and 85. -/
theorem review_score_bounds (t : Nat) (d : Design) (requirements : String) :
    40 ≤ (ai_agent_2_review_design t d requirements).score
    ∧ (ai_agent_2_review_design t d requirements).score ≤ 85 := by
  rw [review_score_eq]
  by_cases h1 : d.designs.length < 3 <;>
    cases h2 : d.technical_specs.responsive <;>
    cases h3 : strContains (strLower d.technical_specs.accessibility) "accessibility" <;>
    simp [h1, h2, h3]

/-- A sample design used to exercise the reviewer: five components,
responsive, with the word accessibility present in its spec. -/
def accessibleDesign : Design :=
  { ai_agent_1_generate_design 0 "sample" with
      technical_specs :=
        { framework := "React 18 with TypeScript",
          styling := "Tailwind CSS v3 with custom theme extensions",
          responsive := true,
          accessibility := "Full accessibility support" } }

/-- C5 witness: the scoring rule applied to a concrete five-component
responsive design whose spec contains the accessibility keyword. -/
theorem review_score_rule_witness :
    (ai_agent_2_review_design 0 accessibleDesign "req").score = 85
    ∧ (ai_agent_2_review_design 0 accessibleDesign "req").status = "approved" :=
  (review_score_rule 0 accessibleDesign "req").2 rfl rfl rfl

/-- C2: approving an existing project that is not `pending_approval` raises
a 400 client error and leaves the store unchanged; approving a
`pending_approval` project succeeds, records the human approval, and sets
the status to `approved` when the request's flag is true and `rejected`
otherwise, touching no other project. -/
theorem approve_project_transitions (store : Store) (project_id : String) (p : Project)
    (approval : ApprovalRequest) (t : Nat) (hfind : store project_id = some p) :
    (p.status ≠ "pending_approval" →
      (approve_project store project_id approval t).1 =
        .error { status_code := 400,
                 detail := "Project cannot be approved in current status: " ++ p.status }
      ∧ (approve_project store project_id approval t).2 = store)
    ∧ (p.status = "pending_approval" →
      (approve_project store project_id approval t).1 =
        .ok ("Project " ++ (if approval.approved then "approved" else "rejected"), project_id)
      ∧ (approve_project store project_id approval t).2 project_id =
          some { p with
            human_approval := some { approved := approval.approved,
                                     feedback := approval.feedback.getD "",
                                     timestamp := t, approver := "Human Reviewer" },
            status := if approval.approved then "approved" else "rejected" }
      ∧ ∀ k, k ≠ project_id → (approve_project store project_id approval t).2 k = store k) := by
  constructor
  · intro hst
    constructor <;> simp [approve_project, hfind, hst]
  · intro hst
    refine ⟨?_, ?_, ?_⟩
    · simp [approve_project, hfind, hst]
    · simp [approve_project, hfind, hst]
    · intro k hk
      simp [approve_project, hfind, hst, hk]

/-- C2 witness: approving a concrete `pending_approval` project succeeds. -/
theorem approve_project_transitions_witness :
    (approve_project
        (fun k => if k = "p1"
          then some { create_project "n" "r" 0 with status := "pending_approval" }
          else none)
        "p1" { approved := true, feedback := some "fine" } 9).1 =
      .ok ("Project approved", "p1") := by
  have h := approve_project_transitions
      (fun k => if k = "p1"
        then some { create_project "n" "r" 0 with status := "pending_approval" }
        else none)
      "p1" { create_project "n" "r" 0 with status := "pending_approval" }
      { approved := true, feedback := some "fine" } 9 (by simp)
  exact (h.2 rfl).1

/-- C4: regenerating an existing project in any state succeeds, resets the
status to `pending` and clears design, review and human approval, touching
no other project; the pipeline is then re-entered as a background task. -/
theorem regenerate_design_resets (store : Store) (project_id : String) (p : Project)
    (hfind : store project_id = some p) :
    (regenerate_design store project_id).1 = .ok ("Design regeneration started", project_id)
    ∧ (regenerate_design store project_id).2 project_id =
        some { p with status := "pending", design := none, review := none,
                      human_approval := none }
    ∧ ∀ k, k ≠ project_id → (regenerate_design store project_id).2 k = store k := by
  refine ⟨?_, ?_, ?_⟩
  · simp [regenerate_design, hfind]
  · simp [regenerate_design, hfind, resetForRegenerate]
  · intro k hk
    simp [regenerate_design, hfind, hk]

/-- C4 witness: regenerating a concrete approved project resets it. -/
theorem regenerate_design_resets_witness :
    (regenerate_design
        (fun k => if k = "p1"
          then some { create_project "n" "r" 0 with status := "approved" } else none)
        "p1").2 "p1" =
      some (create_project "n" "r" 0) := by
  have h := regenerate_design_resets
      (fun k => if k = "p1"
        then some { create_project "n" "r" 0 with status := "approved" } else none)
      "p1" { create_project "n" "r" 0 with status := "approved" } (by simp)
  exact h.2.1

/-- C7: every project state reachable through create, the writes of a
single non-interleaved pipeline run, approve and regenerate satisfies the
stage invariant: design is null while the status is `pending` or
`generating`, review is null while it is `pending`, `generating` or
`reviewing`, and human approval is null until a decision is made from
`pending_approval`. -/
theorem stage_invariant_reachable (p : Project) (h : Reachable p) : stageInvariant p := by
  induction h with
  | create name requirements t =>
      exact ⟨fun _ => rfl, fun _ => rfl, fun _ => rfl⟩
  | pipelineStart q hq hst ih =>
      exact ⟨fun _ => ih.1 (Or.inl hst), fun _ => ih.2.1 (Or.inl hst),
             fun _ => ih.2.2 (Or.inl hst)⟩
  | designDone q t requirements hq hst ih =>
      refine ⟨fun hc => ?_, fun _ => ih.2.1 (Or.inr (Or.inl hst)),
              fun _ => ih.2.2 (Or.inr (Or.inl hst))⟩
      simp [attachDesign] at hc
  | reviewDone q d t requirements hq hst hd ih =>
      refine ⟨fun hc => ?_, fun hc => ?_, fun _ => ih.2.2 (Or.inr (Or.inr (Or.inl hst)))⟩ <;>
        by_cases hb : (ai_agent_2_review_design t d requirements).status == "approved" <;>
        simp [attachReview, hb] at hc
  | pipelineFail q m hq hst ih =>
      refine ⟨fun hc => ?_, fun hc => ?_, fun hc => ?_⟩ <;> simp [setError] at hc
  | approve q ha hq hst ih =>
      refine ⟨fun hc => ?_, fun hc => ?_, fun hc => ?_⟩ <;>
        cases hha : ha.approved <;> rw [hha] at hc <;> simp at hc
  | regenerate q hq ih =>
      exact ⟨fun _ => rfl, fun _ => rfl, fun _ => rfl⟩

/-- C7 witness: a freshly created project satisfies the stage invariant. -/
theorem stage_invariant_reachable_witness :
    stageInvariant (create_project "landing page" "responsive site" 0) :=
  stage_invariant_reachable _ (Reachable.create "landing page" "responsive site" 0)

/-- C8 counterexample: two calls of the design generator at different
timestamps return different payloads, because the timestamp is embedded in
the payload. -/
theorem stub_generators_timestamp_counterexample :
    ai_agent_1_generate_design 0 "site" ≠ ai_agent_1_generate_design 1 "site" := by
  intro h
  exact absurd (congrArg Design.timestamp h) (by decide)

/-- C8 amended: both stubs are deterministic up to the embedded timestamp:
the generator's designs and technical specs are the same across any two
calls, calls at equal timestamps return fully equal payloads, and the
reviewer's output on equal designs agrees on every field except the
timestamp (and fully at equal timestamps), independently of the
requirements strings. -/
theorem stub_generators_fixed_content (t1 t2 : Nat) (r1 r2 : String) (d1 d2 : Design) :
    (ai_agent_1_generate_design t1 r1).designs = (ai_agent_1_generate_design t2 r2).designs
    ∧ (ai_agent_1_generate_design t1 r1).technical_specs =
        (ai_agent_1_generate_design t2 r2).technical_specs
    ∧ (t1 = t2 → ai_agent_1_generate_design t1 r1 = ai_agent_1_generate_design t2 r2)
    ∧ (d1 = d2 →
        (ai_agent_2_review_design t1 d1 r1).score = (ai_agent_2_review_design t2 d2 r2).score
        ∧ (ai_agent_2_review_design t1 d1 r1).status =
            (ai_agent_2_review_design t2 d2 r2).status
        ∧ (ai_agent_2_review_design t1 d1 r1).strengths =
            (ai_agent_2_review_design t2 d2 r2).strengths
        ∧ (ai_agent_2_review_design t1 d1 r1).issues =
            (ai_agent_2_review_design t2 d2 r2).issues
        ∧ (ai_agent_2_review_design t1 d1 r1).suggestions =
            (ai_agent_2_review_design t2 d2 r2).suggestions)
    ∧ (t1 = t2 → d1 = d2 →
        ai_agent_2_review_design t1 d1 r1 = ai_agent_2_review_design t2 d2 r2) := by
  refine ⟨rfl, rfl, ?_, ?_, ?_⟩
  · rintro rfl; rfl
  · rintro rfl; exact ⟨rfl, rfl, rfl, rfl, rfl⟩
  · rintro rfl rfl; rfl

/-- C8 witness: the determinism statement applied at concrete timestamps,
requirements and designs. -/
theorem stub_generators_fixed_content_witness :
    ai_agent_1_generate_design 3 "a" = ai_agent_1_generate_design 3 "b"
    ∧ ai_agent_2_review_design 3 (ai_agent_1_generate_design 3 "a") "a"
      = ai_agent_2_review_design 3 (ai_agent_1_generate_design 3 "a") "b" := by
  have h := stub_generators_fixed_content 3 3 "a" "b"
      (ai_agent_1_generate_design 3 "a") (ai_agent_1_generate_design 3 "a")
  exact ⟨h.2.2.1 rfl, h.2.2.2.2 rfl rfl⟩

/-- C10: for a project id missing from the store, `get_project` replies
with a 400 error (its catch-all handler converts its own 404 to a 400,
`str(e)` becoming the detail), while `approve_project`, which re-raises
`HTTPException`s unchanged, surfaces a genuine 404. -/
theorem get_project_missing_400 (store : Store) (project_id : String)
    (approval : ApprovalRequest) (t : Nat) (hmiss : store project_id = none) :
    get_project store project_id =
      .error { status_code := 400,
               detail := httpExcStr { status_code := 404, detail := "Project not found" } }
    ∧ (approve_project store project_id approval t).1 =
      .error { status_code := 404, detail := "Project not found" } := by
  constructor
  · simp [get_project, getProjectBody, hmiss]
  · simp [approve_project, hmiss]

/-- C10 witness: on the empty store the lookup returns a 400 whose detail
embeds the original 404, and approval returns the plain 404. -/
theorem get_project_missing_400_witness :
    get_project (fun _ => none) "p1" =
      .error { status_code := 400, detail := "404: Project not found" }
    ∧ (approve_project (fun _ => none) "p1" { approved := false, feedback := none } 0).1 =
      .error { status_code := 404, detail := "Project not found" } := by
  have h := get_project_missing_400 (fun _ => none) "p1"
      { approved := false, feedback := none } 0 rfl
  exact ⟨h.1, h.2⟩

end AIAgents
